import Mathlib

/-!
Verification development for the Plex video-converter program
(`plex_converter.py`).  The program drives an external encoder
(`ffmpeg`) over single files or directory batches, parses the encoder's
diagnostic stream for `time=HH:MM:SS.ms` progress markers, and cleans up
partial output on user cancellation.

The embedding below models Python strings as lists of characters, the
filesystem as a list of existing paths, and the external world observed
by `convert_file` (probe result, diagnostic lines, exit code, interrupt)
as an explicit environment record.  Python floats are modelled as exact
rationals; the numeric literals exercised here (two-digit fractions of
seconds) are exactly representable either way.
-/

namespace PlexConv

/-- Characters of a Python string. -/
abbrev Str := List Char

/-- Python `str.lower()` (ASCII is all the program compares). -/
def pyLower (s : Str) : Str := s.map Char.toLower

/-- Does `pat` occur at the start of `s`?  (Helper for substring search.) -/
def startsWith : Str → Str → Bool
  | [], _ => true
  | _ :: _, [] => false
  | c :: cs, d :: ds => c == d && startsWith cs ds

/-- First occurrence of `sep` in `s`: returns the part before it and the
part after it, or `none` when `sep` does not occur.  For nonempty `sep`
this models both Python's `sep in s` test and `s.split(sep)` taking the
segment between the first and second occurrence. -/
def findSplit (sep : Str) : Str → Option (Str × Str)
  | [] => if sep.isEmpty then some ([], []) else none
  | c :: rest =>
    if startsWith sep (c :: rest) then some ([], (c :: rest).drop sep.length)
    else
      match findSplit sep rest with
      | some (pre, post) => some (c :: pre, post)
      | none => none

/-- Python `sep in s` for nonempty `sep`. -/
def containsSub (sep s : Str) : Bool := (findSplit sep s).isSome

/-- The segment of `s` following the first occurrence of `sep`, up to the
next occurrence of `sep`; `none` when `sep` is absent.  This is
`s.split(sep)[1]` in Python (index error impossible when `sep in s`). -/
def afterFirst (sep s : Str) : Option Str :=
  match findSplit sep s with
  | some (_, post) =>
    match findSplit sep post with
    | some (mid, _) => some mid
    | none => some post
  | none => none

/-- Python `s.split()` (no argument): split on whitespace runs, dropping
empty fields. -/
def pySplitWsAux : Str → Str → List Str
  | [], cur => if cur.isEmpty then [] else [cur.reverse]
  | c :: rest, cur =>
    if c.isWhitespace then
      if cur.isEmpty then pySplitWsAux rest []
      else cur.reverse :: pySplitWsAux rest []
    else pySplitWsAux rest (c :: cur)

/-- Python `s.split()` with no argument. -/
def pySplitWs (s : Str) : List Str := pySplitWsAux s []

/-- Python `s.split(':')`: split on every occurrence of the separator,
keeping empty fields. -/
def splitOnChar (c : Char) : Str → List Str
  | [] => [[]]
  | x :: rest =>
    if x == c then [] :: splitOnChar c rest
    else
      match splitOnChar c rest with
      | [] => [[x]]
      | h :: t => (x :: h) :: t

/-- Value of a nonempty all-digit string (accumulator form). -/
def digitsValAux : Str → Nat → Option Nat
  | [], acc => some acc
  | c :: rest, acc =>
    if c.isDigit then digitsValAux rest (acc * 10 + (c.toNat - 48)) else none

/-- Value of a nonempty all-digit string; `none` on empty input or any
non-digit character. -/
def digitsVal (s : Str) : Option Nat :=
  if s.isEmpty then none else digitsValAux s 0

/-- Strip leading and trailing whitespace, as Python's numeric
constructors do before parsing. -/
def stripWs (s : Str) : Str :=
  ((s.dropWhile Char.isWhitespace).reverse.dropWhile Char.isWhitespace).reverse

/-- Model of Python `int(s)` on the decimal strings this program feeds
it: optional sign followed by digits, surrounding whitespace allowed;
`none` models the `ValueError` raised on anything else. -/
def pyInt (s : Str) : Option Int :=
  let t := stripWs s
  if t.head? = some '-' then (digitsVal t.tail).map fun n => -(n : Int)
  else if t.head? = some '+' then (digitsVal t.tail).map Int.ofNat
  else (digitsVal t).map Int.ofNat

/-- Decomposition of an unsigned decimal numeral (`30`, `30.`, `.5`,
`30.50`): integer-part value, fraction-digits value, and the number of
fraction digits.  Kept separate from the rational assembly so that it
is a pure computation over naturals. -/
def pyFloatParts (t : Str) : Option (Nat × Nat × Nat) :=
  match splitOnChar '.' t with
  | [ip] => (digitsVal ip).map fun n => (n, 0, 0)
  | [ip, fp] =>
    if ip.isEmpty then (digitsVal fp).map fun f => (0, f, fp.length)
    else if fp.isEmpty then (digitsVal ip).map fun n => (n, 0, 0)
    else
      match digitsVal ip, digitsVal fp with
      | some n, some f => some (n, f, fp.length)
      | _, _ => none
  | _ => none

/-- The rational value of a decomposed decimal numeral. -/
def ratOfParts (p : Nat × Nat × Nat) : ℚ :=
  (p.1 : ℚ) + (p.2.1 : ℚ) / 10 ^ p.2.2

/-- Model of Python `float(s)` on the decimal strings this program feeds
it (the `HH:MM:SS.ms` seconds field): optional sign and a decimal
numeral; `none` models the `ValueError` on anything else.  The value is
kept as an exact rational. -/
def pyFloat (s : Str) : Option ℚ :=
  let t := stripWs s
  if t.head? = some '-' then (pyFloatParts t.tail).map fun p => -(ratOfParts p)
  else if t.head? = some '+' then (pyFloatParts t.tail).map ratOfParts
  else (pyFloatParts t).map ratOfParts

/-! ## Paths and filesystem -/

/-- A `pathlib.Path`: parent directory components plus the final name
component. -/
structure PyPath where
  dir : List Str
  name : Str
deriving DecidableEq

/-- `Path.stem` from `pathlib`: the name without its last suffix.  The
suffix starts at the last dot, provided that dot is neither the first
nor the last character of the name. -/
def rfindDotAux : Str → Nat → Option Nat → Option Nat
  | [], _, best => best
  | c :: rest, i, best =>
    rfindDotAux rest (i + 1) (if c == '.' then some i else best)

/-- `Path.stem` of a name component. -/
def pyStem (name : Str) : Str :=
  match rfindDotAux name 0 none with
  | some i => if 0 < i ∧ i < name.length - 1 then name.take i else name
  | none => name

/-- The filesystem, as the set of currently existing paths. -/
abbrev FS := List PyPath

/-- `Path.exists()`. -/
def pathExists (fs : FS) (p : PyPath) : Bool := decide (p ∈ fs)

/-- Create (or overwrite) a file. -/
def addPath (fs : FS) (p : PyPath) : FS := if p ∈ fs then fs else p :: fs

/-- `Path.unlink()`. -/
def removePath (fs : FS) (p : PyPath) : FS := fs.filter (fun q => q ≠ p)

/-! ## The converter object -/

/-- The `PlexConverter` object: `__init__` stores the four configuration
attributes and the fixed extension list.  Note that `__init__` performs
no validation of any kind. -/
structure PlexConverter where
  quality : Int
  preset : Str
  audio_bitrate : Str
  copy_subtitles : Bool
  video_extensions : List Str
deriving DecidableEq

/-- `PlexConverter.__init__`: store the arguments as attributes, with no
bounds check on `quality` and no membership check on `preset`. -/
def PlexConverter.init (quality : Int) (preset : Str) (audio_bitrate : Str)
    (copy_subtitles : Bool) : PlexConverter :=
  { quality, preset, audio_bitrate, copy_subtitles,
    video_extensions :=
      [".mp4".toList, ".mkv".toList, ".avi".toList, ".mov".toList,
       ".wmv".toList, ".flv".toList, ".m4v".toList] }

/-- The `argparse` choices for `--preset` in `main`. -/
def presetChoices : List Str :=
  ["ultrafast".toList, "superfast".toList, "veryfast".toList,
   "faster".toList, "fast".toList, "medium".toList, "slow".toList,
   "slower".toList, "veryslow".toList]

/-- The `argparse` check for `--quality`: `choices=range(0, 52)`. -/
def qualityChoiceOk (q : Int) : Bool := decide (0 ≤ q ∧ q < 52)

/-- The `argparse` membership check for `--preset`. -/
def presetChoiceOk (p : Str) : Bool := decide (p ∈ presetChoices)

/-! ## Progress parsing (the monitoring loop body) -/

/-- The marker searched for in each diagnostic line. -/
def timeMarker : Str := "time=".toList

/-- What one iteration of the monitoring loop does with a line. -/
inductive LineEvent where
  /-- No progress printed: marker absent, duration falsy, or a parse
  error swallowed by the inner `except (ValueError, IndexError)`. -/
  | skip : LineEvent
  /-- A progress percentage printed to the progress sink. -/
  | progress (pct : ℚ) : LineEvent
  /-- The uncaught `IndexError` from `line.split('time=')[1].split()[0]`
  when nothing (or only whitespace) follows the marker: this statement
  sits outside the inner `try`, so the error escapes the loop. -/
  | indexFault : LineEvent
deriving DecidableEq

/-- `time_str = line.split('time=')[1].split()[0]`: `none` when that
expression raises `IndexError`. -/
def extractTimeStr (line : Str) : Option Str :=
  match afterFirst timeMarker line with
  | some rest => (pySplitWs rest).head?
  | none => none

/-- The inner parse: split on `:`, require exactly three fields, parse
`int`, `int`, `float`, and form `hours*3600 + minutes*60 + seconds`.
`none` models both the wrong-field-count fall-through and a caught
`ValueError`. -/
def parseElapsed (timeStr : Str) : Option ℚ :=
  match splitOnChar ':' timeStr with
  | [hs, ms, ss] =>
    match pyInt hs, pyInt ms, pyFloat ss with
    | some h, some m, some s => some ((h : ℚ) * 3600 + (m : ℚ) * 60 + s)
    | _, _, _ => none
  | _ => none

/-- One iteration of `for line in process.stderr`: the guard
`if duration and 'time=' in line` (Python's `0.0` is falsy), the token
extraction (outside the inner `try`), the guarded parse, and the
progress print `current_time / duration * 100` — with no clamping. -/
def processLine (duration : Option ℚ) (line : Str) : LineEvent :=
  match duration with
  | none => .skip
  | some d =>
    if d = 0 then .skip
    else if containsSub timeMarker line then
      match extractTimeStr line with
      | none => .indexFault
      | some t =>
        match parseElapsed t with
        | some e => .progress (e / d * 100)
        | none => .skip
    else .skip

/-- The whole monitoring loop: the printed percentages, and whether an
uncaught `IndexError` aborted the loop (handing control to the outer
`except Exception`). -/
def monitorLines (duration : Option ℚ) : List Str → List ℚ × Bool
  | [] => ([], false)
  | l :: ls =>
    match processLine duration l with
    | .skip => monitorLines duration ls
    | .progress p =>
      let r := monitorLines duration ls
      (p :: r.1, r.2)
    | .indexFault => ([], true)

/-! ## convert_file -/

/-- Which `return` statement of `convert_file` produced the result
(instrumentation recording the branch taken; the function's actual
return value is the boolean `result` field below). -/
inductive BranchTag where
  | inputMissing : BranchTag
  | skipped : BranchTag
  | success : BranchTag
  | encoderFailed : BranchTag
  | cancelled : BranchTag
  | genericError : BranchTag
deriving DecidableEq

/-- The world `convert_file` observes: the filesystem at entry, the
reply typed at the overwrite prompt, the `get_duration` probe result,
the child's diagnostic lines, its exit code, whether a
`KeyboardInterrupt` arrives during the `try` block, and whether the
child created the output file before stopping. -/
structure ConvertEnv where
  fs : FS
  overwriteAnswer : Str
  duration : Option ℚ
  stderrLines : List Str
  exitCode : Int
  interrupted : Bool
  childWroteOutput : Bool
deriving DecidableEq

/-- Everything observable about one `convert_file` call: the returned
boolean, the branch that returned, whether ffmpeg was spawned, the
resolved output path, the filesystem after return, the percentages
reported to the progress sink, and whether `process.terminate()` was
called. -/
structure ConvertResult where
  result : Bool
  tag : BranchTag
  spawned : Bool
  resolved : Option PyPath
  fsAfter : FS
  events : List ℚ
  terminated : Bool
deriving DecidableEq

/-- Output-path resolution: `input_path.with_name(input_path.stem +
'_plex.mp4')` when the caller supplies none. -/
def resolveOut (input : PyPath) (outputArg : Option PyPath) : PyPath :=
  match outputArg with
  | none => { dir := input.dir, name := pyStem input.name ++ "_plex.mp4".toList }
  | some o => o

/-- `PlexConverter.convert_file`.  The interrupt, when it arrives, is
modelled as arriving at the start of the monitoring loop; no claim here
depends on the interrupt point.  The `cv` argument carries the encode
configuration, which shapes the ffmpeg command line but not the control
flow modelled here. -/
def convert_file (cv : PlexConverter) (env : ConvertEnv) (input : PyPath)
    (outputArg : Option PyPath) : ConvertResult :=
  if pathExists env.fs input = false then
    { result := false, tag := .inputMissing, spawned := false, resolved := none,
      fsAfter := env.fs, events := [], terminated := false }
  else
    let out := resolveOut input outputArg
    if pathExists env.fs out && (pyLower env.overwriteAnswer != "y".toList) then
      { result := false, tag := .skipped, spawned := false, resolved := some out,
        fsAfter := env.fs, events := [], terminated := false }
    else
      let fsRun := if env.childWroteOutput then addPath env.fs out else env.fs
      if env.interrupted then
        { result := false, tag := .cancelled, spawned := true,
          resolved := some out, fsAfter := removePath fsRun out, events := [],
          terminated := true }
      else
        let m := monitorLines env.duration env.stderrLines
        if m.2 then
          { result := false, tag := .genericError, spawned := true,
            resolved := some out, fsAfter := fsRun, events := m.1,
            terminated := false }
        else if env.exitCode = 0 then
          { result := true, tag := .success, spawned := true,
            resolved := some out, fsAfter := fsRun, events := m.1,
            terminated := false }
        else
          { result := false, tag := .encoderFailed, spawned := true,
            resolved := some out, fsAfter := fsRun, events := m.1,
            terminated := false }

/-! ## batch_convert -/

/-- One pass of the counting in the batch loop: `successful += 1` on a
`True` return, `failed += 1` otherwise. -/
def batchStep (counts : Nat × Nat) (r : Bool) : Nat × Nat :=
  if r then (counts.1 + 1, counts.2) else (counts.1, counts.2 + 1)

/-- The per-file boolean outcomes of the batch loop, in enumeration
order: `convert_file` is invoked once for every candidate, with no
caller-supplied output path. -/
def batchResults (cv : PlexConverter) (jobs : List (PyPath × ConvertEnv)) :
    List Bool :=
  jobs.map fun j => (convert_file cv j.2 j.1 none).result

/-- The counting loop of `PlexConverter.batch_convert` after the
up-front confirmation: successful and failed counters over all files. -/
def batch_convert (cv : PlexConverter) (jobs : List (PyPath × ConvertEnv)) :
    Nat × Nat :=
  (batchResults cv jobs).foldl batchStep (0, 0)

/-- Count of `true` in a list of booleans. -/
def countTrue : List Bool → Nat
  | [] => 0
  | true :: rs => countTrue rs + 1
  | false :: rs => countTrue rs

/-- Count of `false` in a list of booleans. -/
def countFalse : List Bool → Nat
  | [] => 0
  | true :: rs => countFalse rs
  | false :: rs => countFalse rs + 1

/-! ## Concrete fixtures -/

/-- An existing input file `movie.mkv` in the current directory. -/
def exInput : PyPath := { dir := [], name := "movie.mkv".toList }

/-- The default-resolved output beside it. -/
def exOut : PyPath := { dir := [], name := "movie_plex.mp4".toList }

/-- The converter with the documented default configuration. -/
def cvDefault : PlexConverter :=
  PlexConverter.init 22 ("slow".toList) ("192k".toList) false

/-- A typical diagnostic line at elapsed 2 minutes 30 seconds. -/
def lineC1 : Str := "frame=1 time=00:02:30.00 bitrate=1k".toList

/-- Environment for the unclamped-progress run: input exists, probe says
100 seconds, one diagnostic line at elapsed 150 seconds, clean exit. -/
def envC1 : ConvertEnv :=
  { fs := [exInput], overwriteAnswer := [], duration := some 100,
    stderrLines := [lineC1],
    exitCode := 0, interrupted := false, childWroteOutput := true }

/-- Environment whose single diagnostic line has `time=` followed by
nothing: the token extraction raises `IndexError`. -/
def envC2 : ConvertEnv :=
  { fs := [exInput], overwriteAnswer := [], duration := some 100,
    stderrLines := ["frame=12 time=".toList],
    exitCode := 0, interrupted := false, childWroteOutput := true }

/-- Environment for a cancelled run: interrupt arrives while the child
runs and the child has already written part of the output. -/
def envC3 : ConvertEnv :=
  { fs := [exInput], overwriteAnswer := [], duration := none,
    stderrLines := [], exitCode := 1, interrupted := true,
    childWroteOutput := true }

/-- Environment for a run with a missing input file. -/
def envC6 : ConvertEnv :=
  { fs := [], overwriteAnswer := [], duration := none, stderrLines := [],
    exitCode := 0, interrupted := false, childWroteOutput := false }

/-- Environment for a clean successful run. -/
def envC7 : ConvertEnv :=
  { fs := [exInput], overwriteAnswer := [], duration := none,
    stderrLines := [], exitCode := 0, interrupted := false,
    childWroteOutput := true }

/-- Environment where the resolved output already exists and the user
answers `n` at the overwrite prompt. -/
def envSkip : ConvertEnv :=
  { fs := [exInput, exOut], overwriteAnswer := "n".toList, duration := none,
    stderrLines := [], exitCode := 0, interrupted := false,
    childWroteOutput := false }

/-- Environment for an encoder failure: clean monitoring, exit code 1. -/
def envFail : ConvertEnv :=
  { fs := [exInput], overwriteAnswer := [], duration := none,
    stderrLines := [], exitCode := 1, interrupted := false,
    childWroteOutput := true }

/-- Evaluation helper: the time token `00:02:30.00` parses to exactly
150 seconds. -/
theorem parseElapsed_ex150 :
    parseElapsed ['0','0',':','0','2',':','3','0','.','0','0'] =
      some (150 : ℚ) := by
  have hp : pyFloatParts (stripWs ['3','0','.','0','0']) = some (30, 0, 2) := by
    decide
  have hfl : pyFloat ['3','0','.','0','0'] = some ((30 : ℚ)) := by
    simp +decide [pyFloat, hp, ratOfParts]
  have hsplit : splitOnChar ':' ['0','0',':','0','2',':','3','0','.','0','0'] =
      [['0','0'], ['0','2'], ['3','0','.','0','0']] := by decide
  have hh : pyInt ['0','0'] = some 0 := by decide
  have hm : pyInt ['0','2'] = some 2 := by decide
  simp [parseElapsed, hsplit, hh, hm, hfl]
  norm_num

/-! ## Claims -/

/-- C1 (amended): for a diagnostic line with a well-formed time marker
and a known positive duration, the percent printed to the progress sink
is `elapsed / duration * 100` with NO clamping: values above 100 are
reported as-is. -/
theorem C1_progress_unclamped (d e : ℚ) (line t : Str)
    (hd : 0 < d)
    (hct : containsSub timeMarker line = true)
    (hex : extractTimeStr line = some t)
    (hpe : parseElapsed t = some e) :
    processLine (some d) line = .progress (e / d * 100) := by
  have hdz : ¬ d = 0 := ne_of_gt hd
  simp [processLine, hdz, hct, hex, hpe]

/-- C1 (witness): the amended theorem at duration 100 and elapsed 150. -/
theorem C1_progress_unclamped_witness :
    processLine (some 100) lineC1 = .progress ((150 : ℚ) / 100 * 100) :=
  C1_progress_unclamped 100 150 lineC1
    ['0','0',':','0','2',':','3','0','.','0','0']
    (by norm_num) (by decide) (by decide) parseElapsed_ex150

/-- C1 (counterexample): with probed duration 100.0 and elapsed 150.0
the value reported to the progress sink is 150.0, outside [0, 100] —
the claimed clamp to 100.0 does not happen. -/
theorem C1_counterexample :
    processLine (some 100) lineC1 = .progress 150 ∧ ¬ ((150 : ℚ) ≤ 100) := by
  constructor
  · have h0 : ¬ (100 : ℚ) = 0 := by norm_num
    have hct : containsSub timeMarker lineC1 = true := by decide
    have hex : extractTimeStr lineC1 =
        some ['0','0',':','0','2',':','3','0','.','0','0'] := by decide
    have hval : (150 : ℚ) / 100 * 100 = 150 := by norm_num
    simp [processLine, h0, hct, hex, parseElapsed_ex150, hval]
  · norm_num

/-- C2: malformed time tokens with the wrong field count or non-numeric
parts are indeed skipped silently, but a line where nothing follows the
`time=` marker raises an `IndexError` at the token extraction — which
sits OUTSIDE the inner `try` — so the loop aborts into the outer
`except Exception` and `convert_file` returns `False` even though the
encoder exits with code 0. -/
theorem C2_malformed_line_fault :
    processLine (some 100) ("time=1:2 x".toList) = .skip ∧
    processLine (some 100) ("time=aa:bb:cc x".toList) = .skip ∧
    processLine (some 100) ("frame=12 time=".toList) = .indexFault ∧
    (convert_file cvDefault envC2 exInput none).result = false ∧
    (convert_file cvDefault envC2 exInput none).tag = .genericError ∧
    envC2.exitCode = 0 := by decide

/-- C5: a well-formed `HH:MM:SS[.fraction]` token with exactly three
colon-separated numeric fields converts to exactly
`hours*3600 + minutes*60 + seconds`. -/
theorem C5_elapsed_exact (t hs ms ss : Str) (h m : Int) (s : ℚ)
    (hsplit : splitOnChar ':' t = [hs, ms, ss])
    (hh : pyInt hs = some h) (hm : pyInt ms = some m)
    (hsec : pyFloat ss = some s) :
    parseElapsed t = some ((h : ℚ) * 3600 + (m : ℚ) * 60 + s) := by
  simp [parseElapsed, hsplit, hh, hm, hsec]

/-- C5 (witness): `"01:02:03.50"` converts to exactly 3723.5. -/
theorem C5_elapsed_exact_witness :
    parseElapsed ("01:02:03.50".toList) = some ((7447 : ℚ) / 2) := by
  have hp : pyFloatParts (stripWs ['0','3','.','5','0']) = some (3, 50, 2) := by
    decide
  have hfl : pyFloat ['0','3','.','5','0'] = some ((3 : ℚ) + 50 / 10 ^ 2) := by
    simp +decide [pyFloat, hp, ratOfParts]
  have h := C5_elapsed_exact ("01:02:03.50".toList) ['0','1'] ['0','2']
    ['0','3','.','5','0'] 1 2 ((3 : ℚ) + 50 / 10 ^ 2)
    (by decide) (by decide) (by decide) hfl
  rw [h]
  norm_num

/-- Helper: a path never survives its own `unlink`. -/
theorem pathExists_removePath (fs : FS) (p : PyPath) :
    pathExists (removePath fs p) p = false := by
  simp [pathExists, removePath, List.mem_filter]

/-- C3: when a `KeyboardInterrupt` arrives while the conversion runs
(the input existed and the overwrite prompt did not divert the call),
`convert_file` takes the cancellation branch: it calls
`process.terminate()`, unlinks the resolved output, returns (`False`),
and afterwards the resolved output path does not exist. -/
theorem C3_cancel_cleanup (cv : PlexConverter) (env : ConvertEnv)
    (input : PyPath) (outputArg : Option PyPath)
    (hin : pathExists env.fs input = true)
    (hskip : ¬ (pathExists env.fs (resolveOut input outputArg) = true ∧
      ¬ pyLower env.overwriteAnswer = ['y']))
    (hint : env.interrupted = true) :
    (convert_file cv env input outputArg).tag = .cancelled ∧
    (convert_file cv env input outputArg).terminated = true ∧
    (convert_file cv env input outputArg).result = false ∧
    pathExists (convert_file cv env input outputArg).fsAfter
      (resolveOut input outputArg) = false := by
  simp [convert_file, hin, hskip, hint, pathExists_removePath]

/-- C3 (witness): a cancelled run over `movie.mkv` with a partially
written output. -/
theorem C3_cancel_cleanup_witness :
    (convert_file cvDefault envC3 exInput none).tag = .cancelled ∧
    (convert_file cvDefault envC3 exInput none).terminated = true ∧
    (convert_file cvDefault envC3 exInput none).result = false ∧
    pathExists (convert_file cvDefault envC3 exInput none).fsAfter
      (resolveOut exInput none) = false :=
  C3_cancel_cleanup cvDefault envC3 exInput none (by decide) (by decide)
    (by decide)

/-- Helper: unfolding the batch counting loop. -/
theorem foldl_batchStep_eq (rs : List Bool) (a b : Nat) :
    rs.foldl batchStep (a, b) = (a + countTrue rs, b + countFalse rs) := by
  induction rs generalizing a b with
  | nil => simp [countTrue, countFalse]
  | cons r rs ih =>
    cases r <;>
      simp [batchStep, countTrue, countFalse, ih, Prod.ext_iff] <;> omega

/-- Helper: every file contributes to exactly one of the two counters. -/
theorem countTrue_add_countFalse (rs : List Bool) :
    countTrue rs + countFalse rs = rs.length := by
  induction rs with
  | nil => simp [countTrue, countFalse]
  | cons r rs ih => cases r <;> simp [countTrue, countFalse] <;> omega

/-- C4: the batch loop invokes `convert_file` once per enumerated file,
in order (`batchResults` is exactly the per-file outcome list), counts
successes and non-successes, and the two final counters sum to the
number of files regardless of per-file outcomes. -/
theorem C4_batch_counts (cv : PlexConverter)
    (jobs : List (PyPath × ConvertEnv)) :
    batch_convert cv jobs =
      (countTrue (batchResults cv jobs), countFalse (batchResults cv jobs)) ∧
    (batch_convert cv jobs).1 + (batch_convert cv jobs).2 = jobs.length := by
  have h : batch_convert cv jobs =
      (countTrue (batchResults cv jobs), countFalse (batchResults cv jobs)) := by
    simpa [batch_convert] using
      foldl_batchStep_eq (batchResults cv jobs) 0 0
  refine ⟨h, ?_⟩
  rw [h]
  have h2 := countTrue_add_countFalse (batchResults cv jobs)
  simpa [batchResults] using h2

/-- C6: a nonexistent input path returns `False` before ffmpeg is
spawned and with the filesystem untouched. -/
theorem C6_missing_input (cv : PlexConverter) (env : ConvertEnv)
    (input : PyPath) (outputArg : Option PyPath)
    (h : pathExists env.fs input = false) :
    convert_file cv env input outputArg =
      { result := false, tag := .inputMissing, spawned := false,
        resolved := none, fsAfter := env.fs, events := [],
        terminated := false } := by
  simp [convert_file, h]

/-- C6 (witness): converting `movie.mkv` over an empty filesystem. -/
theorem C6_missing_input_witness :
    convert_file cvDefault envC6 exInput none =
      { result := false, tag := .inputMissing, spawned := false,
        resolved := none, fsAfter := envC6.fs, events := [],
        terminated := false } :=
  C6_missing_input cvDefault envC6 exInput none (by decide)

/-- C7: when no output path is supplied, the resolved output is the
input stem plus `_plex.mp4`, in the input's own directory — whatever
branch the conversion later takes. -/
theorem C7_default_output (cv : PlexConverter) (env : ConvertEnv)
    (input : PyPath) (h : pathExists env.fs input = true) :
    (convert_file cv env input none).resolved =
      some { dir := input.dir,
             name := pyStem input.name ++ "_plex.mp4".toList } := by
  simp only [convert_file, h, Bool.true_eq_false, if_false, resolveOut]
  split
  · rfl
  · split
    · rfl
    · split
      · rfl
      · split <;> rfl

/-- C7 (witness): input `movie.mkv` resolves to `movie_plex.mp4` beside
it. -/
theorem C7_default_output_witness :
    (convert_file cvDefault envC7 exInput none).resolved =
      some { dir := [], name := "movie_plex.mp4".toList } := by
  rw [C7_default_output cvDefault envC7 exInput (by decide)]
  decide

/-- C8 (amended): declining the overwrite prompt returns `False` — the
same boolean an encoder failure returns, so not a distinct Skipped
outcome — without spawning ffmpeg and with the filesystem (hence the
existing output file) untouched. -/
theorem C8_skip_untouched (cv : PlexConverter) (env : ConvertEnv)
    (input : PyPath) (outputArg : Option PyPath)
    (hin : pathExists env.fs input = true)
    (hout : pathExists env.fs (resolveOut input outputArg) = true)
    (hans : ¬ pyLower env.overwriteAnswer = ['y']) :
    (convert_file cv env input outputArg).result = false ∧
    (convert_file cv env input outputArg).tag = .skipped ∧
    (convert_file cv env input outputArg).spawned = false ∧
    (convert_file cv env input outputArg).fsAfter = env.fs := by
  simp [convert_file, hin, hout, hans]

/-- C8 (witness): the amended theorem at the concrete declined-prompt
run. -/
theorem C8_skip_untouched_witness :
    (convert_file cvDefault envSkip exInput none).result = false ∧
    (convert_file cvDefault envSkip exInput none).tag = .skipped ∧
    (convert_file cvDefault envSkip exInput none).spawned = false ∧
    (convert_file cvDefault envSkip exInput none).fsAfter = envSkip.fs :=
  C8_skip_untouched cvDefault envSkip exInput none (by decide) (by decide)
    (by decide)

/-- C8 (counterexample): the declined-overwrite run and an
encoder-failure run return the very same value, so the skip return is
not distinct from a failure. -/
theorem C8_counterexample :
    (convert_file cvDefault envSkip exInput none).tag = .skipped ∧
    (convert_file cvDefault envFail exInput none).tag = .encoderFailed ∧
    (convert_file cvDefault envSkip exInput none).result =
      (convert_file cvDefault envFail exInput none).result := by decide

/-- C9 (amended): bounds-checking of the quality factor and membership
checking of the preset happen only in the CLI argument parsing
(`argparse` `choices`); `PlexConverter.__init__` itself performs no
validation and stores whatever it is given. -/
theorem C9_validation_at_cli_only (q : Int) (p a : Str) (sub : Bool) :
    ((PlexConverter.init q p a sub).quality = q ∧
     (PlexConverter.init q p a sub).preset = p) ∧
    (qualityChoiceOk q = true ↔ 0 ≤ q ∧ q < 52) ∧
    (presetChoiceOk p = true ↔ p ∈ presetChoices) := by
  refine ⟨⟨rfl, rfl⟩, ?_, ?_⟩ <;> simp [qualityChoiceOk, presetChoiceOk]

/-- C9 (counterexample): constructing a converter with quality 99 and
preset `bogus` is not rejected — the object is built and stores both
values, although both fail the CLI checks. -/
theorem C9_counterexample :
    (PlexConverter.init 99 ("bogus".toList) ("192k".toList) false).quality
      = 99 ∧
    (PlexConverter.init 99 ("bogus".toList) ("192k".toList) false).preset
      = "bogus".toList ∧
    qualityChoiceOk 99 = false ∧
    presetChoiceOk ("bogus".toList) = false := by decide

/-- C10: `convert_file` returns a bare boolean, so a declined-overwrite
skip, a user cancellation and an encoder failure all return the same
`False`, and each increments the batch driver's failed counter. -/
theorem C10_outcome_collapse (cv : PlexConverter)
    (envS envC envF : ConvertEnv) (inS inC inF : PyPath)
    (outS outC outF : Option PyPath)
    (hS1 : pathExists envS.fs inS = true)
    (hS2 : pathExists envS.fs (resolveOut inS outS) = true)
    (hS3 : ¬ pyLower envS.overwriteAnswer = ['y'])
    (hC1 : pathExists envC.fs inC = true)
    (hC2 : ¬ (pathExists envC.fs (resolveOut inC outC) = true ∧
            ¬ pyLower envC.overwriteAnswer = ['y']))
    (hC3 : envC.interrupted = true)
    (hF1 : pathExists envF.fs inF = true)
    (hF2 : ¬ (pathExists envF.fs (resolveOut inF outF) = true ∧
            ¬ pyLower envF.overwriteAnswer = ['y']))
    (hF3 : envF.interrupted = false)
    (hF4 : (monitorLines envF.duration envF.stderrLines).2 = false)
    (hF5 : ¬ envF.exitCode = 0) :
    ((convert_file cv envS inS outS).tag = .skipped ∧
     (convert_file cv envC inC outC).tag = .cancelled ∧
     (convert_file cv envF inF outF).tag = .encoderFailed) ∧
    ((convert_file cv envS inS outS).result = false ∧
     (convert_file cv envC inC outC).result = false ∧
     (convert_file cv envF inF outF).result = false) ∧
    (∀ t f : Nat,
      batchStep (t, f) (convert_file cv envS inS outS).result = (t, f + 1) ∧
      batchStep (t, f) (convert_file cv envC inC outC).result = (t, f + 1) ∧
      batchStep (t, f) (convert_file cv envF inF outF).result = (t, f + 1)) := by
  have rS : (convert_file cv envS inS outS).result = false ∧
      (convert_file cv envS inS outS).tag = .skipped := by
    simp [convert_file, hS1, hS2, hS3]
  have rC : (convert_file cv envC inC outC).result = false ∧
      (convert_file cv envC inC outC).tag = .cancelled := by
    simp [convert_file, hC1, hC2, hC3]
  have rF : (convert_file cv envF inF outF).result = false ∧
      (convert_file cv envF inF outF).tag = .encoderFailed := by
    simp [convert_file, hF1, hF2, hF3, hF4, hF5]
  refine ⟨⟨rS.2, rC.2, rF.2⟩, ⟨rS.1, rC.1, rF.1⟩, ?_⟩
  intro t f
  simp [batchStep, rS.1, rC.1, rF.1]

/-- C10 (witness): the three concrete runs all return `False`, and a
batch at counters (3, 4) moves each of them to (3, 5). -/
theorem C10_outcome_collapse_witness :
    ((convert_file cvDefault envSkip exInput none).tag = .skipped ∧
     (convert_file cvDefault envC3 exInput none).tag = .cancelled ∧
     (convert_file cvDefault envFail exInput none).tag = .encoderFailed) ∧
    ((convert_file cvDefault envSkip exInput none).result = false ∧
     (convert_file cvDefault envC3 exInput none).result = false ∧
     (convert_file cvDefault envFail exInput none).result = false) ∧
    (batchStep (3, 4) (convert_file cvDefault envSkip exInput none).result
        = (3, 5) ∧
     batchStep (3, 4) (convert_file cvDefault envC3 exInput none).result
        = (3, 5) ∧
     batchStep (3, 4) (convert_file cvDefault envFail exInput none).result
        = (3, 5)) := by
  have h := C10_outcome_collapse cvDefault envSkip envC3 envFail
    exInput exInput exInput none none none
    (by decide) (by decide) (by decide)
    (by decide) (by decide) (by decide)
    (by decide) (by decide) (by decide) (by decide) (by decide)
  exact ⟨h.1, h.2.1, h.2.2 3 4⟩

end PlexConv
